import Mathlib

/-!
# Verification of the splitwise-integrator reconciliation core

A shallow embedding, in Lean 4, of the receipt data model
(`core/receipt_info.py`), the duplicate detector, split handling and
category lookup (`core/splitwise_service.py`) and the confirmation /
duplicate-check handlers of the conversation state machine
(`bot/telegram_bot.py`), together with theorems settling the spec claims.

Modelling conventions:
* Python strings are modelled as `List Char` (`Str`), with the ASCII
  fragment of `str.lower` / `str.upper`.
* Python `float(...)` parsing of amount strings is modelled exactly over
  decimal literals (optional sign, digits, optional fraction, optional
  exponent); `str(float(...))` is modelled by exact decimal rendering,
  which agrees with CPython on values whose decimal expansion terminates
  within 17 fractional digits and whose magnitude is below 10^16 (all
  amounts relevant here).  Special floats (`nan`, `inf`), underscores and
  surrounding whitespace are outside the modelled domain.
* `datetime` values are modelled structurally (year .. microsecond),
  without time zones (the repository manipulates naive datetimes);
  `datetime.isoformat` and the fragment of `fromisoformat` /
  `strptime("%Y-%m-%d")` exercised by the program are modelled directly.
* Effectful operations (the ledger client, Telegram I/O) are modelled by
  passing their observable outcomes as explicit parameters and recording
  the data handed to them (e.g. the expense payload sent to
  `createExpense`).
-/

/-- Python strings, modelled as lists of characters. -/
abbrev Str := List Char

/-- ASCII fragment of Python `str.lower` on one character. -/
def pyLowerChar (c : Char) : Char :=
  if 65 ≤ c.toNat ∧ c.toNat ≤ 90 then Char.ofNat (c.toNat + 32) else c

/-- ASCII fragment of Python `str.upper` on one character. -/
def pyUpperChar (c : Char) : Char :=
  if 97 ≤ c.toNat ∧ c.toNat ≤ 122 then Char.ofNat (c.toNat - 32) else c

/-- Python `s.lower()` (ASCII fragment). -/
def lowerStr (s : Str) : Str := s.map pyLowerChar

/-- Python `s.upper()` (ASCII fragment). -/
def upperStr (s : Str) : Str := s.map pyUpperChar

/-- Python substring containment `needle in hay`. -/
def isSubstr (needle : Str) : Str → Bool
  | [] => needle.isEmpty
  | c :: rest => needle.isPrefixOf (c :: rest) || isSubstr needle rest

/-- The whitespace recognised by Python `str.strip()` (ASCII fragment). -/
def isPySpace (c : Char) : Bool :=
  c = ' ' || c = '\t' || c = '\n' || c = '\r'

/-- Python `s.strip()` (ASCII whitespace fragment). -/
def pyStrip (s : Str) : Str :=
  ((s.dropWhile isPySpace).reverse.dropWhile isPySpace).reverse

/-- Truthiness of an optional Python string (`None` and `""` are falsy). -/
def pyTruthy : Option Str → Bool
  | some s => !s.isEmpty
  | none => false

/-- The ASCII digit character for `n % 10`. -/
def digitChar (n : Nat) : Char := Char.ofNat (48 + n % 10)

/-- `n` rendered as exactly `k` decimal digits (zero padded, truncating
high digits beyond the width). -/
def padDigits : Nat → Nat → Str
  | 0, _ => []
  | k + 1, n => padDigits k (n / 10) ++ [digitChar n]

/-- Read one ASCII digit. -/
def parseDigit (c : Char) : Option Nat :=
  if 48 ≤ c.toNat ∧ c.toNat ≤ 57 then some (c.toNat - 48) else none

/-- Read a two-digit decimal number. -/
def parse2 (a b : Char) : Option Nat := do
  let x ← parseDigit a
  let y ← parseDigit b
  pure (10 * x + y)

/-- Read a four-digit decimal number. -/
def parse4 (a b c d : Char) : Option Nat := do
  let x ← parse2 a b
  let y ← parse2 c d
  pure (100 * x + y)

/-- Read a six-digit decimal number. -/
def parse6 (a b c d e f : Char) : Option Nat := do
  let x ← parse2 a b
  let y ← parse2 c d
  let z ← parse2 e f
  pure (10000 * x + 100 * y + z)

theorem charToNat_ofNat (n : Nat) (h : n < 55296) : (Char.ofNat n).toNat = n := by
  have hv : n.isValidChar := Or.inl h
  simp [Char.ofNat, hv, Char.ofNatAux, Char.toNat, UInt32.toNat, BitVec.toNat_ofNatLt]

theorem parseDigit_digitChar (n : Nat) : parseDigit (digitChar n) = some (n % 10) := by
  have h10 : n % 10 < 10 := Nat.mod_lt _ (by omega)
  have := charToNat_ofNat (48 + n % 10) (by omega)
  simp [parseDigit, digitChar, this]
  omega

theorem parse2_digitChar (a b : Nat) :
    parse2 (digitChar a) (digitChar b) = some (10 * (a % 10) + b % 10) := by
  simp [parse2, parseDigit_digitChar]

theorem pad2_eq (n : Nat) : padDigits 2 n = [digitChar (n / 10), digitChar n] := by
  simp [padDigits]

theorem pad4_eq (n : Nat) :
    padDigits 4 n =
      [digitChar (n / 1000), digitChar (n / 100), digitChar (n / 10), digitChar n] := by
  simp [padDigits, Nat.div_div_eq_div_mul]

theorem pad6_eq (n : Nat) :
    padDigits 6 n =
      [digitChar (n / 100000), digitChar (n / 10000), digitChar (n / 1000),
       digitChar (n / 100), digitChar (n / 10), digitChar n] := by
  simp [padDigits, Nat.div_div_eq_div_mul]

theorem parse2_pad (n : Nat) (h : n < 100) :
    parse2 (digitChar (n / 10)) (digitChar n) = some n := by
  rw [parse2_digitChar]
  congr 1
  omega

theorem parse4_pad (n : Nat) (h : n < 10000) :
    parse4 (digitChar (n / 1000)) (digitChar (n / 100)) (digitChar (n / 10)) (digitChar n) =
      some n := by
  simp [parse4, parse2_digitChar]
  omega

theorem parse6_pad (n : Nat) (h : n < 1000000) :
    parse6 (digitChar (n / 100000)) (digitChar (n / 10000)) (digitChar (n / 1000))
        (digitChar (n / 100)) (digitChar (n / 10)) (digitChar n) = some n := by
  simp [parse6, parse2_digitChar]
  omega

/-- Longest leading run of decimal digits (as digit values), with the rest. -/
def takeDigits : Str → List Nat × Str
  | [] => ([], [])
  | c :: rest =>
    match parseDigit c with
    | some d =>
      let p := takeDigits rest
      (d :: p.1, p.2)
    | none => ([], c :: rest)

/-- Strip one optional leading sign; `true` means negative. -/
def splitSign : Str → Bool × Str
  | '-' :: rest => (true, rest)
  | '+' :: rest => (false, rest)
  | s => (false, s)

/-- Value of a big-endian digit list. -/
def digitsVal (ds : List Nat) : Nat := ds.foldl (fun a d => a * 10 + d) 0

/-- An exact rational value, used to model the real numbers that Python
float arithmetic approximates.  The denominator is kept positive but not
necessarily reduced; all operations are executable integer arithmetic.
(`Rat` itself is unsuitable here: its arithmetic is `@[irreducible]`, so
concrete instances could not be settled by `decide`.) -/
structure PyNum where
  num : Int
  den : Nat
  den_pos : 0 < den

/-- The rational number a `PyNum` denotes. -/
def PyNum.toRat (a : PyNum) : ℚ := (a.num : ℚ) / (a.den : ℚ)

/-- Embed an integer. -/
def PyNum.ofInt (n : Int) : PyNum := ⟨n, 1, Nat.one_pos⟩

/-- `m / 10^k`. -/
def PyNum.mk10 (m : Int) (k : Nat) : PyNum := ⟨m, 10 ^ k, Nat.pos_pow_of_pos k (by omega)⟩

def PyNum.add (a b : PyNum) : PyNum :=
  ⟨a.num * b.den + b.num * a.den, a.den * b.den, Nat.mul_pos a.den_pos b.den_pos⟩

def PyNum.sub (a b : PyNum) : PyNum :=
  ⟨a.num * b.den - b.num * a.den, a.den * b.den, Nat.mul_pos a.den_pos b.den_pos⟩

def PyNum.mul (a b : PyNum) : PyNum :=
  ⟨a.num * b.num, a.den * b.den, Nat.mul_pos a.den_pos b.den_pos⟩

/-- Division; division by zero yields `0`, matching the `ℚ` convention
(the modelled code never divides by zero). -/
def PyNum.div (a b : PyNum) : PyNum :=
  if hz : b.num = 0 then ⟨0, 1, Nat.one_pos⟩
  else if 0 ≤ b.num then ⟨a.num * b.den, a.den * b.num.natAbs,
    Nat.mul_pos a.den_pos (Int.natAbs_pos.mpr hz)⟩
  else ⟨-(a.num * b.den), a.den * b.num.natAbs,
    Nat.mul_pos a.den_pos (Int.natAbs_pos.mpr hz)⟩

def PyNum.abs (a : PyNum) : PyNum := ⟨|a.num|, a.den, a.den_pos⟩

/-- Decidable order: `a ≤ b` by cross multiplication. -/
def PyNum.ble (a b : PyNum) : Bool := decide (a.num * b.den ≤ b.num * a.den)

/-- Decidable strict order. -/
def PyNum.blt (a b : PyNum) : Bool := decide (a.num * b.den < b.num * a.den)

/-- Decidable value equality (independent of the representation). -/
def PyNum.beq (a b : PyNum) : Bool := decide (a.num * b.den = b.num * a.den)

/-- Floor, as Python `int(math.floor(...))`. -/
def PyNum.floor (a : PyNum) : Int := a.num.fdiv a.den

theorem PyNum.den_cast_pos (a : PyNum) : (0 : ℚ) < (a.den : ℚ) := by
  exact_mod_cast a.den_pos

theorem PyNum.ble_iff (a b : PyNum) : a.ble b = true ↔ a.toRat ≤ b.toRat := by
  rw [PyNum.ble, decide_eq_true_eq, PyNum.toRat, PyNum.toRat,
    div_le_div_iff₀ a.den_cast_pos b.den_cast_pos]
  exact_mod_cast Iff.rfl

theorem PyNum.blt_iff (a b : PyNum) : a.blt b = true ↔ a.toRat < b.toRat := by
  rw [PyNum.blt, decide_eq_true_eq, PyNum.toRat, PyNum.toRat,
    div_lt_div_iff₀ a.den_cast_pos b.den_cast_pos]
  exact_mod_cast Iff.rfl

theorem PyNum.beq_iff (a b : PyNum) : a.beq b = true ↔ a.toRat = b.toRat := by
  rw [PyNum.beq, decide_eq_true_eq, PyNum.toRat, PyNum.toRat,
    div_eq_div_iff (ne_of_gt a.den_cast_pos) (ne_of_gt b.den_cast_pos)]
  exact_mod_cast Iff.rfl

theorem PyNum.toRat_ofInt (n : Int) : (PyNum.ofInt n).toRat = (n : ℚ) := by
  simp [PyNum.ofInt, PyNum.toRat]

theorem PyNum.toRat_mk10 (m : Int) (k : Nat) :
    (PyNum.mk10 m k).toRat = (m : ℚ) / (10 : ℚ) ^ k := by
  simp [PyNum.mk10, PyNum.toRat]

theorem PyNum.toRat_mul (a b : PyNum) : (a.mul b).toRat = a.toRat * b.toRat := by
  simp only [PyNum.mul, PyNum.toRat]
  push_cast
  rw [div_mul_div_comm]

theorem PyNum.toRat_sub (a b : PyNum) : (a.sub b).toRat = a.toRat - b.toRat := by
  simp only [PyNum.sub, PyNum.toRat]
  rw [div_sub_div _ _ (ne_of_gt a.den_cast_pos) (ne_of_gt b.den_cast_pos)]
  push_cast
  ring_nf

theorem PyNum.toRat_abs (a : PyNum) : a.abs.toRat = |a.toRat| := by
  simp only [PyNum.abs, PyNum.toRat]
  rw [abs_div, abs_of_pos a.den_cast_pos]
  congr 1
  push_cast
  rfl

/-- Python `float(s)` on decimal literals: optional sign, digits, optional
`.` fraction, optional `e`/`E` exponent; at least one mantissa digit, no
trailing characters.  `none` models a raised `ValueError`. -/
def parseDec (s : Str) : Option PyNum :=
  let p1 := splitSign s
  let p2 := takeDigits p1.2
  let p3 : List Nat × Str :=
    match p2.2 with
    | '.' :: r => takeDigits r
    | _ => ([], p2.2)
  if p2.1.isEmpty && p3.1.isEmpty then none
  else
    let m : Int := (digitsVal p2.1 : Int) * (10 : Int) ^ p3.1.length + digitsVal p3.1
    let mant : PyNum := PyNum.mk10 (if p1.1 then -m else m) p3.1.length
    match p3.2 with
    | [] => some mant
    | c :: r =>
      if c = 'e' ∨ c = 'E' then
        let e1 := splitSign r
        let e2 := takeDigits e1.2
        if e2.1.isEmpty || !e2.2.isEmpty then none
        else if e1.1 then some (mant.div (PyNum.ofInt ((10 : Int) ^ digitsVal e2.1)))
        else some (mant.mul (PyNum.ofInt ((10 : Int) ^ digitsVal e2.1)))
      else none

/-- Decimal digits of a fractional part `0 ≤ q < 1`, stopping when the
remainder is exhausted, capped at `fuel` digits. -/
def fracDigits : Nat → PyNum → Str
  | 0, _ => []
  | fuel + 1, q =>
    if q.beq (PyNum.ofInt 0) then []
    else
      let q10 := q.mul (PyNum.ofInt 10)
      digitChar q10.floor.toNat :: fracDigits fuel (q10.sub (PyNum.ofInt q10.floor))

/-- A natural number in decimal. -/
def natToStr (n : Nat) : Str := (Nat.repr n).data

/-- Python `str(...)` of a float value: sign, integer part, a dot, then the
fractional digits (at least one; `0` if none).  Agrees with CPython on the
modelled domain (terminating expansion, magnitude below `10^16`). -/
def renderFloat (q : PyNum) : Str :=
  let m := q.abs
  let ds := fracDigits 17 (m.sub (PyNum.ofInt m.floor))
  (if q.blt (PyNum.ofInt 0) then ['-'] else []) ++ natToStr m.floor.toNat ++
    '.' :: (if ds.isEmpty then ['0'] else ds)

/-- The `str(float(total_raw))`-with-fallback normalization used by
`ReceiptInfo.from_dict` (`receipt_info.py`, lines 117-121). -/
def pyFloatNorm (s : Str) : Str :=
  match parseDec s with
  | some q => renderFloat q
  | none => s

/-- A naive Python `datetime.datetime` value. -/
structure PyDateTime where
  year : Nat
  month : Nat
  day : Nat
  hour : Nat := 0
  minute : Nat := 0
  second : Nat := 0
  microsecond : Nat := 0
deriving DecidableEq, Repr

/-- Gregorian leap year. -/
def isLeap (y : Nat) : Bool := (y % 4 == 0 && y % 100 != 0) || y % 400 == 0

/-- Days in month `m` of year `y` (months numbered from 1). -/
def daysInMonth (y m : Nat) : Nat :=
  if m = 2 then (if isLeap y then 29 else 28)
  else if m = 4 ∨ m = 6 ∨ m = 9 ∨ m = 11 then 30
  else 31

/-- Days in all years strictly before year `y` (proleptic Gregorian). -/
def daysBeforeYear (y : Nat) : Nat :=
  let yp := y - 1
  365 * yp + yp / 4 - yp / 100 + yp / 400

/-- Days in the months of year `y` strictly before month `m`. -/
def daysBeforeMonth (y m : Nat) : Nat :=
  ((List.range (m - 1)).map (fun i => daysInMonth y (i + 1))).sum

/-- Python `date.toordinal()`: day number with 0001-01-01 as day 1. -/
def toOrdinal (d : PyDateTime) : Nat :=
  daysBeforeYear d.year + daysBeforeMonth d.year d.month + d.day

/-- `abs((a.date() - b.date()).days)`: calendar-day distance, ignoring the
time of day. -/
def dateDiffDays (a b : PyDateTime) : Nat :=
  ((toOrdinal a : Int) - (toOrdinal b : Int)).natAbs

/-- `datetime.isoformat()`: `YYYY-MM-DDTHH:MM:SS[.ffffff]`, the fractional
part present exactly when `microsecond ≠ 0`. -/
def isoformat (d : PyDateTime) : Str :=
  padDigits 4 d.year ++ '-' :: padDigits 2 d.month ++ '-' :: padDigits 2 d.day ++
  'T' :: padDigits 2 d.hour ++ ':' :: padDigits 2 d.minute ++ ':' :: padDigits 2 d.second ++
  (if d.microsecond = 0 then [] else '.' :: padDigits 6 d.microsecond)

/-- `datetime.isoformat(timespec='seconds')`: as `isoformat`, always
without the microsecond field. -/
def isoformatSeconds (d : PyDateTime) : Str :=
  isoformat { d with microsecond := 0 }

/-- `datetime.strptime(value, "%Y-%m-%d")` as used by
`ReceiptInfo._coerce_date`: a zero-padded plain date, nothing else. -/
def parseYMD (s : Str) : Option PyDateTime :=
  match s with
  | [y1, y2, y3, y4, sep1, m1, m2, sep2, d1, d2] =>
    if sep1 = '-' ∧ sep2 = '-' then do
      let y ← parse4 y1 y2 y3 y4
      let mo ← parse2 m1 m2
      let da ← parse2 d1 d2
      if 1 ≤ y ∧ 1 ≤ mo ∧ mo ≤ 12 ∧ 1 ≤ da ∧ da ≤ daysInMonth y mo then
        some ⟨y, mo, da, 0, 0, 0, 0⟩
      else none
    else none
  | _ => none

/-- The optional time tail `[THH:MM[:SS[.ffffff]]]` of an ISO timestamp. -/
def parseTimePart : Str → Option (Nat × Nat × Nat × Nat)
  | [] => some (0, 0, 0, 0)
  | 'T' :: h1 :: h2 :: ':' :: m1 :: m2 :: rest => do
    let h ← parse2 h1 h2
    let mi ← parse2 m1 m2
    match rest with
    | [] => pure (h, mi, 0, 0)
    | ':' :: s1 :: s2 :: rest2 => do
      let s ← parse2 s1 s2
      match rest2 with
      | [] => pure (h, mi, s, 0)
      | ['.', u1, u2, u3, u4, u5, u6] => do
        let u ← parse6 u1 u2 u3 u4 u5 u6
        pure (h, mi, s, u)
      | _ => none
    | _ => none
  | _ => none

/-- `datetime.fromisoformat` on the timestamp shapes this program
produces and consumes: `YYYY-MM-DD[THH:MM[:SS[.ffffff]]]`. -/
def parseIso (s : Str) : Option PyDateTime :=
  match s with
  | y1 :: y2 :: y3 :: y4 :: sep1 :: m1 :: m2 :: sep2 :: d1 :: d2 :: rest =>
    if sep1 = '-' ∧ sep2 = '-' then do
      let y ← parse4 y1 y2 y3 y4
      let mo ← parse2 m1 m2
      let da ← parse2 d1 d2
      let t ← parseTimePart rest
      if 1 ≤ y ∧ 1 ≤ mo ∧ mo ≤ 12 ∧ 1 ≤ da ∧ da ≤ daysInMonth y mo ∧
          t.1 ≤ 23 ∧ t.2.1 ≤ 59 ∧ t.2.2.1 ≤ 59 then
        some ⟨y, mo, da, t.1, t.2.1, t.2.2.1, t.2.2.2⟩
      else none
    else none
  | _ => none

/-- Field ranges of a representable `datetime` value. -/
def PyDateTime.Valid (d : PyDateTime) : Prop :=
  1 ≤ d.year ∧ d.year ≤ 9999 ∧ 1 ≤ d.month ∧ d.month ≤ 12 ∧
  1 ≤ d.day ∧ d.day ≤ daysInMonth d.year d.month ∧
  d.hour ≤ 23 ∧ d.minute ≤ 59 ∧ d.second ≤ 59 ∧ d.microsecond ≤ 999999

instance (d : PyDateTime) : Decidable d.Valid := by
  unfold PyDateTime.Valid
  infer_instance

theorem daysInMonth_le (y m : Nat) : daysInMonth y m ≤ 31 := by
  unfold daysInMonth
  split
  · split <;> omega
  · split <;> omega

theorem parseTimePart_pad (h mi s u : Nat) (hh : h < 100) (hmi : mi < 100) (hs : s < 100)
    (hu : u < 1000000) :
    parseTimePart ('T' :: digitChar (h / 10) :: digitChar h :: ':' :: digitChar (mi / 10) ::
      digitChar mi :: ':' :: digitChar (s / 10) :: digitChar s ::
      (if u = 0 then [] else '.' :: padDigits 6 u)) = some (h, mi, s, u) := by
  by_cases hu0 : u = 0
  · subst hu0
    simp [parseTimePart, parse2_pad h hh, parse2_pad mi hmi, parse2_pad s hs]
  · simp [hu0, pad6_eq, parseTimePart, parse2_pad h hh, parse2_pad mi hmi,
      parse2_pad s hs, parse6_pad u hu]

theorem parseIso_isoformat (d : PyDateTime) (hv : d.Valid) : parseIso (isoformat d) = some d := by
  obtain ⟨h1, h2, h3, h4, h5, h6, h7, h8, h9, h10⟩ := hv
  have hday : d.day < 100 := by
    have := daysInMonth_le d.year d.month
    omega
  have hti := parseTimePart_pad d.hour d.minute d.second d.microsecond
    (by omega) (by omega) (by omega) (by omega)
  simp only [isoformat, pad4_eq, pad2_eq, List.cons_append, List.nil_append,
    List.append_assoc]
  simp only [parseIso]
  rw [if_pos (⟨trivial, trivial⟩ : True ∧ True)]
  rw [show (parse4 (digitChar (d.year / 1000)) (digitChar (d.year / 100))
      (digitChar (d.year / 10)) (digitChar d.year)) = some d.year from
    parse4_pad d.year (by omega)]
  rw [show (parse2 (digitChar (d.month / 10)) (digitChar d.month)) = some d.month from
    parse2_pad d.month (by omega)]
  rw [show (parse2 (digitChar (d.day / 10)) (digitChar d.day)) = some d.day from
    parse2_pad d.day hday]
  simp only [Option.bind_eq_bind, Option.some_bind]
  rw [hti]
  simp only [Option.some_bind]
  rw [if_pos (by exact ⟨h1, h3, h4, h5, h6, h7, h8, h9⟩)]

theorem parseYMD_isoformat (d : PyDateTime) : parseYMD (isoformat d) = none := by
  simp only [isoformat, pad4_eq, pad2_eq, List.cons_append, List.nil_append,
    List.append_assoc]
  simp [parseYMD]

/-- One entry of the `users` list: `{user_id, paid_share, owed_share}`
(shares kept as strings, as in the JSON schema). -/
structure UserShare where
  user_id : Int
  paid_share : Str
  owed_share : Str
deriving DecidableEq, Repr

/-- A value found under the `date` key of a receipt dict: either an
actual `datetime` instance or a string. -/
inductive DateVal where
  | dt (d : PyDateTime)
  | str (s : Str)
deriving DecidableEq, Repr

/-- The `ReceiptInfo` dataclass (`core/receipt_info.py`, lines 7-17). -/
structure ReceiptInfo where
  date : PyDateTime
  total : Str
  merchant : Str
  currency_code : Str
  notes : Option Str := none
  category : Option Str := none
  split_option : Str := "equal".data
  users : List UserShare := []
deriving DecidableEq, Repr

/-- The loosely-typed receipt dictionary passed across the
extraction/correction boundary.  A field is `none` when its key is absent
or bound to `None` (the two are indistinguishable through `dict.get`; an
explicit JSON `null` under `total`/`users`/`split_equally`, which the code
would treat slightly differently from an absent key, is outside the
modelled domain). -/
structure RDict where
  date : Option DateVal := none
  total : Option Str := none
  merchant : Option Str := none
  currency_code : Option Str := none
  currencyCode : Option Str := none
  notes : Option Str := none
  category : Option Str := none
  split_option : Option Str := none
  split_equally : Option Bool := none
  users : Option (List UserShare) := none
deriving DecidableEq, Repr

/-- `ReceiptInfo._coerce_date` (`receipt_info.py`, lines 92-106): accept a
`datetime` as is; try `%Y-%m-%d` then `fromisoformat` on a non-empty
string; otherwise fall back to `now`. -/
def coerce_date (now : PyDateTime) : Option DateVal → PyDateTime
  | some (.dt d) => d
  | some (.str s) =>
    if s.isEmpty then now
    else
      match parseYMD s with
      | some d => d
      | none =>
        match parseIso s with
        | some d => d
        | none => now
  | none => now

/-- The currency fallback chain of `from_dict` (`receipt_info.py`, line
113): `data.get('currency_code') or data.get('currencyCode') or 'EUR'`. -/
def sourceCurrency (data : RDict) : Str :=
  if pyTruthy data.currency_code then data.currency_code.getD []
  else if pyTruthy data.currencyCode then data.currencyCode.getD []
  else "EUR".data

/-- `ReceiptInfo.from_dict` (`receipt_info.py`, lines 108-144).  `now` is
the clock value used by the date fallback. -/
def ReceiptInfo.from_dict (now : PyDateTime) (data : RDict) : ReceiptInfo :=
  let date := coerce_date now data.date
  let currency_code := upperStr (sourceCurrency data)
  let total_raw : Str := data.total.getD "0".data
  let total : Str := pyFloatNorm total_raw
  let merchant : Str := if pyTruthy data.merchant then data.merchant.getD [] else "Unknown".data
  let notes := data.notes
  let category := data.category
  let split_option : Str :=
    if pyTruthy data.split_option then data.split_option.getD []
    else if data.split_equally.getD true then "equal".data else "exact".data
  let users := data.users.getD []
  { date := date, total := total, merchant := merchant, currency_code := currency_code,
    notes := notes, category := category, split_option := split_option, users := users }

/-- `ReceiptInfo.to_dict` (`receipt_info.py`, lines 19-27): serialize the
date via `isoformat` and coerce `notes`/`category` to `""` when `None`. -/
def ReceiptInfo.to_dict (r : ReceiptInfo) : RDict :=
  { date := some (.str (isoformat r.date)),
    total := some r.total,
    merchant := some r.merchant,
    currency_code := some r.currency_code,
    currencyCode := none,
    notes := some (r.notes.getD []),
    category := some (r.category.getD []),
    split_option := some r.split_option,
    split_equally := none,
    users := some r.users }

/-- Python `{**base, **d}`: keys of `d` override keys of `base`. -/
def dictMerge (base d : RDict) : RDict :=
  { date := if d.date.isSome then d.date else base.date,
    total := if d.total.isSome then d.total else base.total,
    merchant := if d.merchant.isSome then d.merchant else base.merchant,
    currency_code := if d.currency_code.isSome then d.currency_code else base.currency_code,
    currencyCode := if d.currencyCode.isSome then d.currencyCode else base.currencyCode,
    notes := if d.notes.isSome then d.notes else base.notes,
    category := if d.category.isSome then d.category else base.category,
    split_option := if d.split_option.isSome then d.split_option else base.split_option,
    split_equally := if d.split_equally.isSome then d.split_equally else base.split_equally,
    users := if d.users.isSome then d.users else base.users }

/-- `ReceiptInfo.update_from_dict` (`receipt_info.py`, lines 146-155):
rebuild through `from_dict({**self.to_dict(), **data})` and take every
field of the result (modelled functionally). -/
def ReceiptInfo.update_from_dict (now : PyDateTime) (r : ReceiptInfo) (data : RDict) :
    ReceiptInfo :=
  ReceiptInfo.from_dict now (dictMerge r.to_dict data)

/-- A Splitwise category as cached by `init_categories`: id plus full
display label. -/
structure Category where
  id : Int
  name : Str
deriving DecidableEq, Repr

/-- A raw subcategory as returned by the ledger `getCategories` call. -/
structure RawSubcategory where
  id : Int
  name : Str
deriving DecidableEq, Repr

/-- A raw top-level category with its subcategories. -/
structure RawCategory where
  id : Int
  name : Str
  subcategories : List RawSubcategory
deriving DecidableEq, Repr

/-- `SplitwiseService.init_categories` (`splitwise_service.py`, lines
54-61): each parent first, followed by its subcategories labelled
`"<parent> / <child>"`. -/
def SplitwiseService.init_categories (raw : List RawCategory) : List Category :=
  raw.flatMap fun c =>
    ⟨c.id, c.name⟩ :: c.subcategories.map fun s => ⟨s.id, c.name ++ " / ".data ++ s.name⟩

/-- `SplitwiseService.get_category_by_name` (`splitwise_service.py`, lines
69-76): first cached category whose label contains the requested name. -/
def SplitwiseService.get_category_by_name (cats : List Category) (category_name : Str) :
    Option Category :=
  match cats with
  | [] => none
  | c :: rest =>
    if isSubstr category_name c.name then some c
    else SplitwiseService.get_category_by_name rest category_name

/-- A ledger expense as seen by the duplicate detector.  `deleted_at`
models `getDeletedAt()`.

Modelled from the spec: `ReceiptInfo.from_expense` is called by
`find_potential_duplicates` but absent from the sources; per §4.2 of the
spec the detector compares the historical expense's date, total, merchant
(description) and category label, so the expense is modelled as carrying
the `ReceiptInfo` that conversion yields. -/
structure SWExpense where
  deleted_at : Option Str
  converted : ReceiptInfo
deriving DecidableEq, Repr

/-- Modelled from the spec: the unified `ReceiptInfo.from_expense`
converter (missing from `src/`), exposing the historical expense as a
`ReceiptInfo`. -/
def ReceiptInfo.from_expense (e : SWExpense) : ReceiptInfo := e.converted

/-- Outcome of the `get_expenses` history query inside
`find_potential_duplicates`: the returned window, or a raised error. -/
inductive FetchResult where
  | ok (expenses : List SWExpense)
  | error
deriving DecidableEq, Repr

/-- The body of the `for e in expenses` loop of
`find_potential_duplicates` (`splitwise_service.py`, lines 136-172),
deciding whether one historical expense is kept. -/
def dup_check (r : ReceiptInfo) (e : SWExpense) : Option ReceiptInfo :=
  if e.deleted_at.isSome then none
  else
    let e_ri := ReceiptInfo.from_expense e
    match parseDec e_ri.total with
    | none => none
    | some e_amount =>
      let target_amount : PyNum := (parseDec r.total).getD (PyNum.ofInt 0)
      let target_merchant := lowerStr r.merchant
      let target_category := lowerStr (r.category.getD [])
      let e_description := lowerStr e_ri.merchant
      let e_category := lowerStr (e_ri.category.getD [])
      let date_diff := dateDiffDays r.date e_ri.date
      let crit1 : Bool :=
        date_diff == 0 && (PyNum.ofInt 0).blt target_amount &&
          (target_amount.sub e_amount).abs.ble ((PyNum.mk10 15 2).mul target_amount)
      let same_merchant : Bool :=
        !target_merchant.isEmpty &&
          (isSubstr target_merchant e_description || isSubstr e_description target_merchant)
      let same_category : Bool :=
        !target_category.isEmpty && target_category == e_category
      let crit2 : Bool :=
        !crit1 && date_diff ≤ 2 && (same_merchant || same_category) &&
          (PyNum.ofInt 0).blt target_amount &&
          (target_amount.sub e_amount).abs.ble ((PyNum.mk10 5 2).mul target_amount)
      if crit1 || crit2 then some e_ri else none

/-- `SplitwiseService.find_potential_duplicates` (`splitwise_service.py`,
lines 111-174).  The `±2 day` history query is represented by its outcome
`fetch`; a query failure yields `[]` (the `except` branch, lines
118-123). -/
def SplitwiseService.find_potential_duplicates (fetch : FetchResult) (r : ReceiptInfo) :
    List ReceiptInfo :=
  match fetch with
  | .error => []
  | .ok expenses => expenses.filterMap (dup_check r)

/-- One user entry of the expense object handed to the ledger
`createExpense` call. -/
structure ExpenseUserPayload where
  user_id : Int
  paid_share : Str
  owed_share : Str
deriving DecidableEq, Repr

/-- The expense object built by `SplitwiseService.create_expense` and
handed to `client.createExpense`. -/
structure ExpensePayload where
  cost : Str
  description : Str
  date : Str
  group_id : Int
  currency_code : Str
  split_equally : Bool
  users : List ExpenseUserPayload
  details : Option Str
  category : Option Category
deriving DecidableEq, Repr

/-- The payload-construction part of `SplitwiseService.create_expense`
(`splitwise_service.py`, lines 211-247): everything computed before the
remote `client.createExpense` call.  No share validation happens here;
`cats` is the category cache used by the name lookup. -/
def SplitwiseService.create_expense_payload (cats : List Category) (group_id : Int)
    (r : ReceiptInfo) : ExpensePayload :=
  let is_equal := r.split_option = "equal".data
  { cost := r.total,
    description := r.merchant,
    date := isoformatSeconds r.date,
    group_id := group_id,
    currency_code := r.currency_code,
    split_equally := is_equal,
    users :=
      if is_equal then []
      else r.users.map fun u => ⟨u.user_id, u.paid_share, u.owed_share⟩,
    details := if pyTruthy r.notes then r.notes else none,
    category :=
      if pyTruthy r.category then
        SplitwiseService.get_category_by_name cats (r.category.getD [])
      else none }

/-- The value a conversation handler returns to the Telegram framework:
one of the conversation states, or `ConversationHandler.END`
(`telegram_bot.py`, line 25). -/
inductive HandlerResult where
  | SELECT_GROUP
  | CONFIRM
  | DUPLICATE_CHECK
  | END
deriving DecidableEq, Repr

/-- The per-session working data touched by the confirmation flow
(`context.user_data`). -/
structure SessionData where
  receipt_info : Option ReceiptInfo
  receipt_file_path : Option Str
deriving DecidableEq, Repr

/-- The remote outcome of `client.createExpense`: success, or a raised
ledger error. -/
inductive CreateResult where
  | ok
  | err
deriving DecidableEq, Repr

/-- Observable outcome of running one handler: the returned state, the
number of `createExpense` calls made while it ran, and the session data
it leaves behind. -/
structure StepOut where
  next : HandlerResult
  createCalls : Nat
  data : SessionData
deriving DecidableEq, Repr

/-- `TelegramBot._cleanup_receipt_data` (`telegram_bot.py`, lines
271-285): delete the stored file and drop both session keys. -/
def cleanup_receipt_data (_s : SessionData) : SessionData :=
  { receipt_info := none, receipt_file_path := none }

/-- `TelegramBot._finalize_expense` (`telegram_bot.py`, lines 398-467).
`fetch` is the duplicate-query outcome and `createRes` the remote
`createExpense` outcome; messaging and the best-effort receipt attachment
(which never changes the returned state) are not tracked. -/
def finalize_expense (fetch : FetchResult) (createRes : CreateResult) (s : SessionData)
    (r : ReceiptInfo) (force : Bool) : StepOut :=
  if !force ∧ (SplitwiseService.find_potential_duplicates fetch r) ≠ [] then
    { next := .DUPLICATE_CHECK, createCalls := 0, data := s }
  else
    match createRes with
    | .ok => { next := .END, createCalls := 1, data := cleanup_receipt_data s }
    | .err => { next := .END, createCalls := 1, data := cleanup_receipt_data s }

/-- `TelegramBot.confirm_receipt` (`telegram_bot.py`, lines 491-517),
driven by the text of the incoming message; `authed` is the
`_ensure_authenticated` outcome. -/
def confirm_receipt (fetch : FetchResult) (createRes : CreateResult) (authed : Bool)
    (s : SessionData) (text : Str) : StepOut :=
  if !authed then { next := .END, createCalls := 0, data := s }
  else if lowerStr (pyStrip text) = "yes".data then
    match s.receipt_info with
    | none => { next := .END, createCalls := 0, data := cleanup_receipt_data s }
    | some r => finalize_expense fetch createRes s r false
  else { next := .END, createCalls := 0, data := cleanup_receipt_data s }

/-- `TelegramBot.handle_duplicate_callback` (`telegram_bot.py`, lines
469-489), driven by the callback payload (`"duplicate_proceed"` or
`"duplicate_cancel"`). -/
def handle_duplicate_callback (fetch : FetchResult) (createRes : CreateResult)
    (s : SessionData) (payload : Str) : StepOut :=
  if payload = "duplicate_proceed".data then
    match s.receipt_info with
    | none => { next := .END, createCalls := 0, data := cleanup_receipt_data s }
    | some r => finalize_expense fetch createRes s r true
  else { next := .END, createCalls := 0, data := cleanup_receipt_data s }

/-- The rational number a Python amount string denotes (`0` when it does
not parse), used on the specification side. -/
def specAmount (s : Str) : ℚ :=
  ((parseDec s).map PyNum.toRat).getD 0

/-- Spec §3: `sum(users[].owed_share)` of a receipt, shares read as
numbers. -/
def specOwedSum (r : ReceiptInfo) : ℚ :=
  (r.users.map fun u => specAmount u.owed_share).sum

/-- Spec §3: `sum(users[].paid_share)` of a receipt. -/
def specPaidSum (r : ReceiptInfo) : ℚ :=
  (r.users.map fun u => specAmount u.paid_share).sum

/-- Spec §4.2: `amount_diff_ratio = |candidate.total − historical.total| /
candidate.total` (`0` if `candidate.total` is `0`). -/
def specAmountRatio (cand hist : ReceiptInfo) : ℚ :=
  let t : ℚ := specAmount cand.total
  let e : ℚ := specAmount hist.total
  if t = 0 then 0 else |t - e| / t

/-- Spec §4.2: `same_merchant` — either merchant string contains the
other, case-insensitively. -/
def specSameMerchant (cand hist : ReceiptInfo) : Bool :=
  isSubstr (lowerStr cand.merchant) (lowerStr hist.merchant) ||
    isSubstr (lowerStr hist.merchant) (lowerStr cand.merchant)

/-- Spec §4.2: `same_category` — the category labels are equal,
case-insensitively. -/
def specSameCategory (cand hist : ReceiptInfo) : Bool :=
  match cand.category, hist.category with
  | some a, some b => lowerStr a == lowerStr b
  | _, _ => false

/-- Spec §4.2 same-day tier: `date_diff_days == 0` and
`amount_diff_ratio ≤ 0.15`. -/
def specTier1 (cand hist : ReceiptInfo) : Bool :=
  dateDiffDays cand.date hist.date == 0 && decide (specAmountRatio cand hist ≤ 15 / 100)

/-- Spec §4.2 near tier: `date_diff_days ≤ 2`, merchant or category
match, and `amount_diff_ratio ≤ 0.05`. -/
def specTier2 (cand hist : ReceiptInfo) : Bool :=
  dateDiffDays cand.date hist.date ≤ 2 &&
    (specSameMerchant cand hist || specSameCategory cand hist) &&
    decide (specAmountRatio cand hist ≤ 5 / 100)

/-- Spec §4.2 matching rule: the disjunction of the two tiers. -/
def specDuplicateMatch (cand hist : ReceiptInfo) : Bool :=
  specTier1 cand hist || specTier2 cand hist


/-- The duplicate decision (`crit1 or crit2`) of the loop body of
`find_potential_duplicates`, expressed over the converted receipt. -/
def codeDupMatch (r h : ReceiptInfo) : Bool :=
  let e_amount : PyNum := (parseDec h.total).getD (PyNum.ofInt 0)
  let target_amount : PyNum := (parseDec r.total).getD (PyNum.ofInt 0)
  let target_merchant := lowerStr r.merchant
  let target_category := lowerStr (r.category.getD [])
  let e_description := lowerStr h.merchant
  let e_category := lowerStr (h.category.getD [])
  let date_diff := dateDiffDays r.date h.date
  let crit1 : Bool :=
    date_diff == 0 && (PyNum.ofInt 0).blt target_amount &&
      (target_amount.sub e_amount).abs.ble ((PyNum.mk10 15 2).mul target_amount)
  let same_merchant : Bool :=
    !target_merchant.isEmpty &&
      (isSubstr target_merchant e_description || isSubstr e_description target_merchant)
  let same_category : Bool :=
    !target_category.isEmpty && target_category == e_category
  let crit2 : Bool :=
    !crit1 && date_diff ≤ 2 && (same_merchant || same_category) &&
      (PyNum.ofInt 0).blt target_amount &&
      (target_amount.sub e_amount).abs.ble ((PyNum.mk10 5 2).mul target_amount)
  crit1 || crit2

/-- An expense survives the two skip guards of the detector loop: it is
not deleted and its total parses as a number. -/
def keptInLoop (e : SWExpense) : Bool :=
  e.deleted_at.isNone && (parseDec (ReceiptInfo.from_expense e).total).isSome

theorem dup_check_eq (r : ReceiptInfo) (e : SWExpense) :
    dup_check r e =
      if keptInLoop e && codeDupMatch r e.converted then some e.converted else none := by
  rcases hd : e.deleted_at with _ | v
  all_goals rcases hp : parseDec e.converted.total with _ | ea
  all_goals simp [dup_check, keptInLoop, codeDupMatch, ReceiptInfo.from_expense, hd, hp]

theorem specAmount_toRat (s : Str) :
    specAmount s = ((parseDec s).getD (PyNum.ofInt 0)).toRat := by
  rcases hp : parseDec s with _ | a <;>
    simp [specAmount, hp, PyNum.toRat_ofInt]

theorem specAmount_nonpos_of_ble (s : Str)
    (h : ((parseDec s).getD (PyNum.ofInt 0)).ble (PyNum.ofInt 0) = true) :
    specAmount s ≤ 0 := by
  rw [specAmount_toRat]
  have := (PyNum.ble_iff _ _).mp h
  rwa [PyNum.toRat_ofInt] at this

theorem specAmount_pos_of_blt (s : Str)
    (h : (PyNum.ofInt 0).blt ((parseDec s).getD (PyNum.ofInt 0)) = true) :
    0 < specAmount s := by
  rw [specAmount_toRat]
  have := (PyNum.blt_iff _ _).mp h
  rwa [PyNum.toRat_ofInt] at this

theorem codeDupMatch_nonpos (r h : ReceiptInfo) (ht : specAmount r.total ≤ 0) :
    codeDupMatch r h = false := by
  have hblt : (PyNum.ofInt 0).blt ((parseDec r.total).getD (PyNum.ofInt 0)) = false := by
    rw [← Bool.not_eq_true]
    intro hc
    have := (PyNum.blt_iff _ _).mp hc
    rw [PyNum.toRat_ofInt, ← specAmount_toRat] at this
    push_cast at this
    linarith
  simp [codeDupMatch, hblt]

/-- Sample clock value for concrete instances. -/
def sampleNow : PyDateTime := ⟨2025, 6, 5, 12, 30, 0, 0⟩

/-- Sample receipt date for concrete instances. -/
def sampleDate : PyDateTime := ⟨2024, 1, 1, 0, 0, 0, 0⟩

/-- Sample candidate receipt (the §8 test vector). -/
def sampleCand : ReceiptInfo :=
  ⟨sampleDate, "45.0".data, "Jumbo".data, "EUR".data, none, some "Groceries".data,
    "equal".data, []⟩

/-- Sample same-day historical expense (the §8 test vector). -/
def sampleHist : SWExpense :=
  ⟨none, ⟨sampleDate, "44.0".data, "Jumbo".data, "EUR".data, none, some "Groceries".data,
    "equal".data, []⟩⟩

/-- C5: a failed history query makes the duplicate detector return the
empty list — the `except` branch swallows the error, and the function
returns normally (its result is a list, never a propagated exception). -/
theorem find_potential_duplicates_fail_open (r : ReceiptInfo) :
    SplitwiseService.find_potential_duplicates .error r = [] := rfl

/-- C6: when the candidate's total is `0` (or does not parse to a
positive number), neither tier's amount guard can fire and the detector
returns the empty list for every pool. -/
theorem find_potential_duplicates_zero_total (pool : List SWExpense) (r : ReceiptInfo)
    (ht : specAmount r.total ≤ 0) :
    SplitwiseService.find_potential_duplicates (.ok pool) r = [] := by
  rw [show SplitwiseService.find_potential_duplicates (.ok pool) r =
      pool.filterMap (dup_check r) from rfl]
  rw [List.filterMap_eq_nil_iff]
  intro e _
  rw [dup_check_eq, codeDupMatch_nonpos r e.converted ht]
  simp

/-- C6 witness: a concrete candidate with total `"0"` against a pool that
would otherwise match on both tiers. -/
theorem find_potential_duplicates_zero_total_witness :
    SplitwiseService.find_potential_duplicates (.ok [sampleHist])
      { sampleCand with total := "0".data } = [] :=
  find_potential_duplicates_zero_total [sampleHist] { sampleCand with total := "0".data }
    (specAmount_nonpos_of_ble _ (by decide))

/-- C10: deleted expenses and expenses whose total does not parse are
skipped before the tier rules run — the detector's output over any pool
equals its output over the pool restricted to kept entries, and every
returned receipt is the conversion of a kept pool entry. -/
theorem find_potential_duplicates_skips_bad (pool : List SWExpense) (r : ReceiptInfo) :
    SplitwiseService.find_potential_duplicates (.ok pool) r =
      SplitwiseService.find_potential_duplicates (.ok (pool.filter keptInLoop)) r ∧
    ∀ x ∈ SplitwiseService.find_potential_duplicates (.ok pool) r,
      ∃ e ∈ pool, keptInLoop e = true ∧ x = ReceiptInfo.from_expense e := by
  constructor
  · rw [show SplitwiseService.find_potential_duplicates (.ok pool) r =
        pool.filterMap (dup_check r) from rfl]
    rw [show SplitwiseService.find_potential_duplicates (.ok (pool.filter keptInLoop)) r =
        (pool.filter keptInLoop).filterMap (dup_check r) from rfl]
    induction pool with
    | nil => rfl
    | cons e rest ih =>
      by_cases hk : keptInLoop e = true
      · rw [List.filter_cons_of_pos hk]
        simp only [List.filterMap_cons]
        rw [ih]
      · rw [List.filter_cons_of_neg hk]
        rw [Bool.not_eq_true] at hk
        simp only [List.filterMap_cons, dup_check_eq, hk, Bool.false_and, if_neg Bool.false_ne_true]
        rw [ih]
  · intro x hx
    rw [show SplitwiseService.find_potential_duplicates (.ok pool) r =
        pool.filterMap (dup_check r) from rfl, List.mem_filterMap] at hx
    obtain ⟨e, he, hde⟩ := hx
    rw [dup_check_eq] at hde
    by_cases hcond : (keptInLoop e && codeDupMatch r e.converted) = true
    · rw [if_pos hcond] at hde
      rw [Bool.and_eq_true] at hcond
      exact ⟨e, he, hcond.1, (Option.some.injEq _ _).mp hde.symm⟩
    · rw [if_neg hcond] at hde
      exact absurd hde (Option.noConfusion)

/-- C10 witness: the second conjunct applied to the live twin of the
candidate in a singleton pool. -/
theorem find_potential_duplicates_skips_bad_witness :
    ∃ e ∈ [sampleHist], keptInLoop e = true ∧
      sampleHist.converted = ReceiptInfo.from_expense e :=
  (find_potential_duplicates_skips_bad [sampleHist] sampleCand).2 sampleHist.converted
    (by decide)

/-- C2: with a working receipt in the session, an affirmative text while
the duplicate query comes back empty drives exactly one `createExpense`
call (whatever its remote outcome) and returns `ConversationHandler.END`
with the session cleaned up; the `duplicate_cancel` callback in the
duplicate-check state drives zero `createExpense` calls and also ends the
conversation. -/
theorem confirm_flow_create_calls :
    (∀ fetch createRes s r text,
      s.receipt_info = some r →
      lowerStr (pyStrip text) = "yes".data →
      SplitwiseService.find_potential_duplicates fetch r = [] →
      confirm_receipt fetch createRes true s text =
        ⟨.END, 1, cleanup_receipt_data s⟩) ∧
    (∀ fetch createRes s,
      handle_duplicate_callback fetch createRes s "duplicate_cancel".data =
        ⟨.END, 0, cleanup_receipt_data s⟩) := by
  constructor
  · intro fetch createRes s r text hri htext hdup
    cases createRes <;>
      simp [confirm_receipt, htext, hri, finalize_expense, hdup]
  · intro fetch createRes s
    rw [handle_duplicate_callback]
    rw [if_neg (by decide)]

/-- C2 witness: both parts at a concrete session, with the empty pool and
both remote outcomes irrelevant to the counts. -/
theorem confirm_flow_create_calls_witness :
    confirm_receipt (.ok []) .ok true ⟨some sampleCand, none⟩ "yes".data =
        ⟨.END, 1, cleanup_receipt_data ⟨some sampleCand, none⟩⟩ ∧
    handle_duplicate_callback (.ok []) .ok ⟨some sampleCand, none⟩ "duplicate_cancel".data =
        ⟨.END, 0, cleanup_receipt_data ⟨some sampleCand, none⟩⟩ :=
  ⟨confirm_flow_create_calls.1 (.ok []) .ok ⟨some sampleCand, none⟩ sampleCand "yes".data
      rfl (by decide) rfl,
   confirm_flow_create_calls.2 (.ok []) .ok ⟨some sampleCand, none⟩⟩

theorem get_category_by_name_eq_find (cats : List Category) (n : Str) :
    SplitwiseService.get_category_by_name cats n =
      cats.find? fun c => isSubstr n c.name := by
  induction cats with
  | nil => rfl
  | cons c rest ih =>
    rw [SplitwiseService.get_category_by_name, List.find?_cons]
    by_cases hc : isSubstr n c.name = true
    · rw [if_pos hc, hc]
    · rw [Bool.not_eq_true] at hc
      rw [hc]
      simp only [Bool.false_eq_true, if_false]
      exact ih

/-- C8: over the cache built by `init_categories` (each parent first,
followed by its subcategories labelled `"<parent> / <child>"`), the
lookup returns the first entry whose full label contains the requested
name as a substring, and `none` when no label contains it. -/
theorem get_category_by_name_first_match (raw : List RawCategory) (n : Str) :
    SplitwiseService.get_category_by_name (SplitwiseService.init_categories raw) n =
      (SplitwiseService.init_categories raw).find? (fun c => isSubstr n c.name) ∧
    ((∀ c ∈ SplitwiseService.init_categories raw, isSubstr n c.name = false) →
      SplitwiseService.get_category_by_name (SplitwiseService.init_categories raw) n =
        none) := by
  refine ⟨get_category_by_name_eq_find _ n, fun hall => ?_⟩
  rw [get_category_by_name_eq_find _ n, List.find?_eq_none]
  intro c hc
  rw [hall c hc]
  exact Bool.false_ne_true

/-- C8 witness: a two-parent vocabulary where the query matches the
subcategory label of the second parent. -/
theorem get_category_by_name_first_match_witness :
    SplitwiseService.get_category_by_name
        (SplitwiseService.init_categories
          [⟨1, "Utilities".data, [⟨3, "Electricity".data⟩]⟩,
           ⟨5, "Food and drink".data, [⟨12, "Groceries".data⟩]⟩]) "Groceries".data =
      some ⟨12, "Food and drink / Groceries".data⟩ ∧
    SplitwiseService.get_category_by_name
        (SplitwiseService.init_categories
          [⟨1, "Utilities".data, [⟨3, "Electricity".data⟩]⟩]) "Groceries".data = none := by
  constructor
  · rw [(get_category_by_name_first_match
      [⟨1, "Utilities".data, [⟨3, "Electricity".data⟩]⟩,
       ⟨5, "Food and drink".data, [⟨12, "Groceries".data⟩]⟩] "Groceries".data).1]
    decide
  · exact (get_category_by_name_first_match
      [⟨1, "Utilities".data, [⟨3, "Electricity".data⟩]⟩] "Groceries".data).2 (by decide)

theorem specAmount_eq_of (s : Str) (m : Int) (k : Nat)
    (hn : ((parseDec s).getD (PyNum.ofInt 0)).num = m)
    (hd : ((parseDec s).getD (PyNum.ofInt 0)).den = 10 ^ k) :
    specAmount s = (m : ℚ) / (10 : ℚ) ^ k := by
  rw [specAmount_toRat, PyNum.toRat, hn, hd]
  push_cast
  ring

/-- The imbalanced exact-split correction of C1: total `10.0`, one user
owing `1.0`. -/
def imbalancedDict : RDict :=
  { total := some "10.0".data,
    merchant := some "Cafe".data,
    split_option := some "exact".data,
    users := some [⟨1, "10.0".data, "1.0".data⟩] }

/-- C1 counterexample: `from_dict` accepts an exact split whose owed
shares sum to `1.0` against a total of `10.0` (an imbalance of `9`, far
beyond `0.01`), and `create_expense` builds the ledger payload with these
users verbatim — the receipt reaches `createExpense` with no rejection
anywhere. -/
theorem exact_split_not_validated_counterexample :
    (ReceiptInfo.from_dict sampleNow imbalancedDict).split_option = "exact".data ∧
    |specOwedSum (ReceiptInfo.from_dict sampleNow imbalancedDict) -
        specAmount (ReceiptInfo.from_dict sampleNow imbalancedDict).total| > 1 / 100 ∧
    (SplitwiseService.create_expense_payload [] 7
        (ReceiptInfo.from_dict sampleNow imbalancedDict)).users =
      [⟨1, "10.0".data, "1.0".data⟩] ∧
    (SplitwiseService.create_expense_payload [] 7
        (ReceiptInfo.from_dict sampleNow imbalancedDict)).split_equally = false := by
  have husers : (ReceiptInfo.from_dict sampleNow imbalancedDict).users =
      [⟨1, "10.0".data, "1.0".data⟩] := by decide
  have htot : specAmount (ReceiptInfo.from_dict sampleNow imbalancedDict).total = 100 / 10 ^ 1 :=
    specAmount_eq_of _ 100 1 (by decide) (by decide)
  have howed : specAmount (("1.0".data : Str)) = 10 / 10 ^ 1 :=
    specAmount_eq_of _ 10 1 (by decide) (by decide)
  refine ⟨by decide, ?_, by decide, by decide⟩
  rw [specOwedSum, husers, htot]
  simp only [List.map_cons, List.map_nil, List.sum_cons, List.sum_nil]
  rw [howed]
  norm_num

/-- C1 amended: neither `from_dict` nor `create_expense` checks the
share-sum invariant — for every receipt with `split_option = 'exact'`,
the payload handed to `createExpense` carries the users' shares verbatim
(and the raw total as cost), whatever their sums. -/
theorem create_expense_forwards_exact_shares (cats : List Category) (gid : Int)
    (r : ReceiptInfo) (h : r.split_option = "exact".data) :
    (SplitwiseService.create_expense_payload cats gid r).split_equally = false ∧
    (SplitwiseService.create_expense_payload cats gid r).users =
      r.users.map (fun u => ⟨u.user_id, u.paid_share, u.owed_share⟩) ∧
    (SplitwiseService.create_expense_payload cats gid r).cost = r.total := by
  have hne : r.split_option ≠ "equal".data := by
    rw [h]
    decide
  simp [SplitwiseService.create_expense_payload, hne]

/-- C1 amended witness: the imbalanced receipt's shares reach the payload
untouched. -/
theorem create_expense_forwards_exact_shares_witness :
    (SplitwiseService.create_expense_payload [] 7
        (ReceiptInfo.from_dict sampleNow imbalancedDict)).split_equally = false ∧
    (SplitwiseService.create_expense_payload [] 7
        (ReceiptInfo.from_dict sampleNow imbalancedDict)).users =
      (ReceiptInfo.from_dict sampleNow imbalancedDict).users.map
        (fun u => ⟨u.user_id, u.paid_share, u.owed_share⟩) ∧
    (SplitwiseService.create_expense_payload [] 7
        (ReceiptInfo.from_dict sampleNow imbalancedDict)).cost =
      (ReceiptInfo.from_dict sampleNow imbalancedDict).total :=
  create_expense_forwards_exact_shares [] 7 (ReceiptInfo.from_dict sampleNow imbalancedDict)
    (by decide)

/-- An ASCII uppercase letter. -/
def isUpperAlphaChar (c : Char) : Bool := decide (65 ≤ c.toNat ∧ c.toNat ≤ 90)

/-- An ASCII letter of either case. -/
def isAsciiAlphaChar (c : Char) : Bool :=
  isUpperAlphaChar c || decide (97 ≤ c.toNat ∧ c.toNat ≤ 122)

theorem pyUpperChar_upper (c : Char) (h : isAsciiAlphaChar c = true) :
    isUpperAlphaChar (pyUpperChar c) = true := by
  rw [isAsciiAlphaChar, isUpperAlphaChar, Bool.or_eq_true, decide_eq_true_eq,
    decide_eq_true_eq] at h
  rw [pyUpperChar, isUpperAlphaChar, decide_eq_true_eq]
  by_cases hl : 97 ≤ c.toNat ∧ c.toNat ≤ 122
  · rw [if_pos hl, charToNat_ofNat _ (by omega)]
    omega
  · rw [if_neg hl]
    omega

/-- C9 counterexample: `from_dict` upper-cases the supplied currency code
but never checks its length — a four-letter `"euro"` yields the
four-letter `"EURO"`, so the result is not a string of exactly 3
uppercase letters. -/
theorem currency_code_length_counterexample :
    (ReceiptInfo.from_dict sampleNow { currency_code := some "euro".data }).currency_code =
      "EURO".data ∧
    (("EURO".data : Str).length = 3) = False := by
  constructor
  · decide
  · decide

/-- C9 amended: the resulting `currency_code` is the upper-casing of the
fallback chain `currency_code or currencyCode or 'EUR'`; whenever that
source is a 3-letter ASCII-alphabetic string (in particular whenever it
is absent, empty or the `'EUR'` default), the result is exactly 3
uppercase ASCII letters. -/
theorem from_dict_currency_normalized (now : PyDateTime) (data : RDict)
    (h3 : (sourceCurrency data).length = 3)
    (ha : ∀ c ∈ sourceCurrency data, isAsciiAlphaChar c = true) :
    (ReceiptInfo.from_dict now data).currency_code = upperStr (sourceCurrency data) ∧
    (ReceiptInfo.from_dict now data).currency_code.length = 3 ∧
    ∀ c ∈ (ReceiptInfo.from_dict now data).currency_code, isUpperAlphaChar c = true := by
  refine ⟨rfl, ?_, ?_⟩
  · rw [show (ReceiptInfo.from_dict now data).currency_code = upperStr (sourceCurrency data)
      from rfl]
    rw [upperStr, List.length_map]
    exact h3
  · intro c hc
    rw [show (ReceiptInfo.from_dict now data).currency_code = upperStr (sourceCurrency data)
      from rfl, upperStr, List.mem_map] at hc
    obtain ⟨c0, hc0, rfl⟩ := hc
    exact pyUpperChar_upper c0 (ha c0 hc0)

/-- C9 amended witness: a lower-case 3-letter code. -/
theorem from_dict_currency_normalized_witness :
    (ReceiptInfo.from_dict sampleNow { currencyCode := some "usd".data }).currency_code =
        upperStr (sourceCurrency { currencyCode := some "usd".data }) ∧
    (ReceiptInfo.from_dict sampleNow
        { currencyCode := some "usd".data }).currency_code.length = 3 ∧
    ∀ c ∈ (ReceiptInfo.from_dict sampleNow
        { currencyCode := some "usd".data }).currency_code, isUpperAlphaChar c = true :=
  from_dict_currency_normalized sampleNow { currencyCode := some "usd".data }
    (by decide) (by decide)

theorem lowerStr_isEmpty_false {s : Str} (h : s ≠ []) : (lowerStr s).isEmpty = false := by
  cases s with
  | nil => exact absurd rfl h
  | cons c rest => rfl

theorem codeDupMatch_eq_spec (cand hist : ReceiptInfo)
    (hm : cand.merchant ≠ [])
    (hc : cand.category ≠ some [])
    (ht : 0 < specAmount cand.total)
    (hp : (parseDec hist.total).isSome) :
    codeDupMatch cand hist = specDuplicateMatch cand hist := by
  obtain ⟨ea, hea⟩ := Option.isSome_iff_exists.mp hp
  have htq : specAmount cand.total =
      ((parseDec cand.total).getD (PyNum.ofInt 0)).toRat := specAmount_toRat _
  have heq : specAmount hist.total = ea.toRat := by
    rw [specAmount_toRat, hea]
    rfl
  have ht0 : (0 : ℚ) < ((parseDec cand.total).getD (PyNum.ofInt 0)).toRat := htq ▸ ht
  have hblt : (PyNum.ofInt 0).blt ((parseDec cand.total).getD (PyNum.ofInt 0)) = true := by
    rw [PyNum.blt_iff, PyNum.toRat_ofInt]
    exact_mod_cast ht0
  have hratio : specAmountRatio cand hist =
      |((parseDec cand.total).getD (PyNum.ofInt 0)).toRat - ea.toRat| /
        ((parseDec cand.total).getD (PyNum.ofInt 0)).toRat := by
    rw [specAmountRatio, htq, heq, if_neg (ne_of_gt ht0)]
  have hAmt : ∀ (a : Int) (b : Nat),
      ((((parseDec cand.total).getD (PyNum.ofInt 0)).sub ea).abs.ble
          ((PyNum.mk10 a b).mul ((parseDec cand.total).getD (PyNum.ofInt 0))) = true) ↔
        specAmountRatio cand hist ≤ (a : ℚ) / (10 : ℚ) ^ b := by
    intro a b
    rw [PyNum.ble_iff, PyNum.toRat_abs, PyNum.toRat_sub, PyNum.toRat_mul, PyNum.toRat_mk10,
      hratio, div_le_iff₀ ht0]
  have h15 : ((((parseDec cand.total).getD (PyNum.ofInt 0)).sub ea).abs.ble
      ((PyNum.mk10 15 2).mul ((parseDec cand.total).getD (PyNum.ofInt 0)))) =
      decide (specAmountRatio cand hist ≤ 15 / 100) := by
    rw [Bool.eq_iff_iff, decide_eq_true_eq, hAmt 15 2]
    norm_num
  have h5 : ((((parseDec cand.total).getD (PyNum.ofInt 0)).sub ea).abs.ble
      ((PyNum.mk10 5 2).mul ((parseDec cand.total).getD (PyNum.ofInt 0)))) =
      decide (specAmountRatio cand hist ≤ 5 / 100) := by
    rw [Bool.eq_iff_iff, decide_eq_true_eq, hAmt 5 2]
    norm_num
  have hsm : (!(lowerStr cand.merchant).isEmpty &&
      (isSubstr (lowerStr cand.merchant) (lowerStr hist.merchant) ||
        isSubstr (lowerStr hist.merchant) (lowerStr cand.merchant))) =
      specSameMerchant cand hist := by
    rw [lowerStr_isEmpty_false hm, specSameMerchant]
    rfl
  have hsc : (!(lowerStr (cand.category.getD [])).isEmpty &&
      (lowerStr (cand.category.getD []) == lowerStr (hist.category.getD []))) =
      specSameCategory cand hist := by
    rcases hcc : cand.category with _ | a
    · simp [specSameCategory, hcc, lowerStr]
    · have ha : a ≠ [] := fun hnil => hc (by rw [hcc, hnil])
      rcases hhc : hist.category with _ | b
      · rw [specSameCategory, hcc, hhc]
        simp only [Option.getD_some, Option.getD_none, lowerStr_isEmpty_false ha,
          Bool.not_false, Bool.true_and]
        rw [show lowerStr [] = [] from rfl]
        cases hla : lowerStr a with
        | nil =>
          have hfalse := lowerStr_isEmpty_false ha
          rw [hla] at hfalse
          exact absurd hfalse (by simp)
        | cons x xs => rfl
      · rw [specSameCategory, hcc, hhc]
        simp only [Option.getD_some, lowerStr_isEmpty_false ha, Bool.not_false, Bool.true_and]
  rw [codeDupMatch, specDuplicateMatch, specTier1, specTier2]
  simp only [hea, Option.getD_some]
  rw [hsm, hsc, hblt, h15, h5]
  cases dateDiffDays cand.date hist.date == 0 <;>
    cases decide (specAmountRatio cand hist ≤ 15 / 100) <;>
    cases decide (dateDiffDays cand.date hist.date ≤ 2) <;>
    cases specSameMerchant cand hist <;>
    cases specSameCategory cand hist <;>
    cases decide (specAmountRatio cand hist ≤ 5 / 100) <;>
    rfl

/-- C3: over a pool of live, amount-parseable historical expenses, a
candidate with a non-empty merchant, a category that is absent or
non-empty, and a positive parsed total (the `total = 0` case is settled
by the companion zero-total theorem), the detector returns exactly the
conversions of the entries matching tier 1 or tier 2 of §4.2, in pool
order. -/
theorem find_potential_duplicates_matches_spec (pool : List SWExpense) (cand : ReceiptInfo)
    (hm : cand.merchant ≠ [])
    (hc : cand.category ≠ some [])
    (ht : 0 < specAmount cand.total)
    (hpool : ∀ e ∈ pool, e.deleted_at = none ∧
      (parseDec (ReceiptInfo.from_expense e).total).isSome) :
    SplitwiseService.find_potential_duplicates (.ok pool) cand =
      (pool.map ReceiptInfo.from_expense).filter (specDuplicateMatch cand) := by
  rw [show SplitwiseService.find_potential_duplicates (.ok pool) cand =
      pool.filterMap (dup_check cand) from rfl]
  induction pool with
  | nil => rfl
  | cons e rest ih =>
    have he := hpool e (List.mem_cons_self e rest)
    have hrest : ∀ x ∈ rest, x.deleted_at = none ∧
        (parseDec (ReceiptInfo.from_expense x).total).isSome :=
      fun x hx => hpool x (List.mem_cons_of_mem e hx)
    have hkept : keptInLoop e = true := by
      rw [keptInLoop, he.1]
      simp [he.2]
    rw [List.filterMap_cons, List.map_cons, List.filter_cons, dup_check_eq, hkept,
      codeDupMatch_eq_spec cand e.converted hm hc ht he.2]
    by_cases hd : specDuplicateMatch cand e.converted = true
    · rw [hd]
      simp only [Bool.true_and, if_pos rfl]
      rw [show ReceiptInfo.from_expense e = e.converted from rfl, ih hrest]
      simp [hd]
    · rw [Bool.not_eq_true] at hd
      rw [hd]
      simp only [Bool.true_and, Bool.false_eq_true, if_false]
      rw [show ReceiptInfo.from_expense e = e.converted from rfl, ih hrest]
      simp [hd]

/-- C3 witness: the §8 vectors — a same-day near-amount twin and a
two-days-off same-category twin are both returned, in pool order. -/
theorem find_potential_duplicates_matches_spec_witness :
    SplitwiseService.find_potential_duplicates
        (.ok [sampleHist,
              ⟨none, ⟨⟨2024, 1, 3, 0, 0, 0, 0⟩, "44.0".data, "Albert Heijn".data, "EUR".data,
                none, some "groceries".data, "equal".data, []⟩⟩]) sampleCand =
      ([sampleHist,
        ⟨none, ⟨⟨2024, 1, 3, 0, 0, 0, 0⟩, "44.0".data, "Albert Heijn".data, "EUR".data,
          none, some "groceries".data, "equal".data, []⟩⟩].map
          ReceiptInfo.from_expense).filter (specDuplicateMatch sampleCand) :=
  find_potential_duplicates_matches_spec _ sampleCand (by decide) (by decide)
    (specAmount_pos_of_blt _ (by decide)) (by decide)

theorem isEmpty_false_of_ne_nil {α : Type} {l : List α} (h : l ≠ []) : l.isEmpty = false := by
  cases l with
  | nil => exact absurd rfl h
  | cons c rest => rfl

theorem isoformat_isEmpty_false (d : PyDateTime) : (isoformat d).isEmpty = false := by
  rw [isoformat, pad4_eq]
  rfl

theorem coerce_date_isoformat (now : PyDateTime) (d : PyDateTime) (hv : d.Valid) :
    coerce_date now (some (.str (isoformat d))) = d := by
  simp only [coerce_date, isoformat_isEmpty_false, Bool.false_eq_true, if_false,
    parseYMD_isoformat, parseIso_isoformat d hv]

/-- Sample receipt whose round trip changes three fields: the
`"45.00"` total, the absent notes and the absent category. -/
def roundTripSample : ReceiptInfo :=
  ⟨sampleDate, "45.00".data, "Jumbo".data, "EUR".data, none, none, "equal".data, []⟩

/-- C4 counterexample: a schema-valid receipt (total `"45.00"`, no notes,
no category) does not survive `from_dict ∘ to_dict` — the total is
renormalized to `"45.0"` and the absent notes and category become `""`,
so the round trip is not the identity field-for-field. -/
theorem from_dict_to_dict_roundtrip_counterexample :
    (ReceiptInfo.from_dict sampleNow roundTripSample.to_dict).total = "45.0".data ∧
    (ReceiptInfo.from_dict sampleNow roundTripSample.to_dict).notes = some [] ∧
    (ReceiptInfo.from_dict sampleNow roundTripSample.to_dict).category = some [] ∧
    roundTripSample.notes = none ∧
    ReceiptInfo.from_dict sampleNow roundTripSample.to_dict ≠ roundTripSample := by
  refine ⟨by decide, by decide, by decide, rfl, by decide⟩

/-- C4 amended: the round trip is the identity exactly on already
normalized receipts — date fields in `datetime` range, notes and
category present (possibly empty) strings, non-empty merchant,
split_option and currency code with the latter already upper-case, and a
total that is a fixed point of the `str(float(...))` normalization.  In
general the round trip maps `None` notes/category to `""` and
renormalizes the total, as the counterexample shows. -/
theorem from_dict_to_dict_roundtrip (now : PyDateTime) (r : ReceiptInfo)
    (hv : r.date.Valid)
    (hn : r.notes.isSome)
    (hcat : r.category.isSome)
    (hm : r.merchant ≠ [])
    (hcur : r.currency_code ≠ [])
    (hup : upperStr r.currency_code = r.currency_code)
    (hso : r.split_option ≠ [])
    (htot : pyFloatNorm r.total = r.total) :
    ReceiptInfo.from_dict now r.to_dict = r := by
  obtain ⟨nstr, hnstr⟩ := Option.isSome_iff_exists.mp hn
  obtain ⟨cstr, hcstr⟩ := Option.isSome_iff_exists.mp hcat
  have hdate := coerce_date_isoformat now r.date hv
  simp only [ReceiptInfo.from_dict, ReceiptInfo.to_dict, sourceCurrency, pyTruthy]
  rw [ReceiptInfo.mk.injEq]
  refine ⟨hdate, ?_, ?_, ?_, ?_, ?_, ?_, rfl⟩
  · exact htot
  · rw [isEmpty_false_of_ne_nil hm]
    rfl
  · rw [isEmpty_false_of_ne_nil hcur]
    simp only [Bool.not_false, if_pos rfl]
    exact hup
  · rw [hnstr]
    rfl
  · rw [hcstr]
    rfl
  · rw [isEmpty_false_of_ne_nil hso]
    rfl

/-- C4 amended witness: a normalized receipt round-trips unchanged. -/
theorem from_dict_to_dict_roundtrip_witness :
    ReceiptInfo.from_dict sampleNow
        (ReceiptInfo.to_dict ⟨sampleDate, "45.0".data, "Jumbo".data, "EUR".data, some [],
          some "Groceries".data, "equal".data, []⟩) =
      ⟨sampleDate, "45.0".data, "Jumbo".data, "EUR".data, some [], some "Groceries".data,
        "equal".data, []⟩ :=
  from_dict_to_dict_roundtrip sampleNow _ (by decide) (by decide) (by decide) (by decide)
    (by decide) (by decide) (by decide) (by decide)

/-- C7 counterexample: with an empty correction dict (no keys at all),
`update_from_dict` still changes the receipt — absent notes/category
become `""` through the serialize/re-parse cycle, so a field whose key is
absent from the correction is not always equal to its prior value. -/
theorem update_from_dict_frame_counterexample :
    roundTripSample.notes = none ∧
    (ReceiptInfo.update_from_dict sampleNow roundTripSample {}).notes = some [] ∧
    (ReceiptInfo.update_from_dict sampleNow roundTripSample {}).total = "45.0".data ∧
    roundTripSample.total = "45.00".data := by
  refine ⟨rfl, by decide, by decide, rfl⟩

/-- C7 amended: on a normalized receipt (same conditions as the round
trip theorem), `update_from_dict` is a replace-by-field merge: every
field whose key is absent from the correction keeps its prior value, and
every field whose key is present takes the corrected value after
`from_dict` normalization (date coercion, `str(float(...))` for the
total, `'Unknown'` for an empty merchant, upper-casing for a non-empty
currency code). -/
theorem update_from_dict_merge (now : PyDateTime) (r : ReceiptInfo) (d : RDict)
    (hv : r.date.Valid)
    (hn : r.notes.isSome)
    (hcat : r.category.isSome)
    (hm : r.merchant ≠ [])
    (hcur : r.currency_code ≠ [])
    (hup : upperStr r.currency_code = r.currency_code)
    (hso : r.split_option ≠ [])
    (htot : pyFloatNorm r.total = r.total) :
    (d.date = none → (ReceiptInfo.update_from_dict now r d).date = r.date) ∧
    (d.total = none → (ReceiptInfo.update_from_dict now r d).total = r.total) ∧
    (d.merchant = none → (ReceiptInfo.update_from_dict now r d).merchant = r.merchant) ∧
    (d.currency_code = none →
      (ReceiptInfo.update_from_dict now r d).currency_code = r.currency_code) ∧
    (d.notes = none → (ReceiptInfo.update_from_dict now r d).notes = r.notes) ∧
    (d.category = none → (ReceiptInfo.update_from_dict now r d).category = r.category) ∧
    (d.split_option = none →
      (ReceiptInfo.update_from_dict now r d).split_option = r.split_option) ∧
    (d.users = none → (ReceiptInfo.update_from_dict now r d).users = r.users) ∧
    (∀ v, d.date = some v →
      (ReceiptInfo.update_from_dict now r d).date = coerce_date now (some v)) ∧
    (∀ t, d.total = some t →
      (ReceiptInfo.update_from_dict now r d).total = pyFloatNorm t) ∧
    (∀ m, d.merchant = some m →
      (ReceiptInfo.update_from_dict now r d).merchant =
        (if m.isEmpty then "Unknown".data else m)) ∧
    (∀ cc, d.currency_code = some cc → cc ≠ [] →
      (ReceiptInfo.update_from_dict now r d).currency_code = upperStr cc) ∧
    (∀ s, d.notes = some s → (ReceiptInfo.update_from_dict now r d).notes = some s) ∧
    (∀ s, d.category = some s → (ReceiptInfo.update_from_dict now r d).category = some s) ∧
    (∀ s, d.split_option = some s → s ≠ [] →
      (ReceiptInfo.update_from_dict now r d).split_option = s) ∧
    (∀ l, d.users = some l → (ReceiptInfo.update_from_dict now r d).users = l) := by
  obtain ⟨nstr, hnstr⟩ := Option.isSome_iff_exists.mp hn
  obtain ⟨cstr, hcstr⟩ := Option.isSome_iff_exists.mp hcat
  refine ⟨?_, ?_, ?_, ?_, ?_, ?_, ?_, ?_, ?_, ?_, ?_, ?_, ?_, ?_, ?_, ?_⟩
  · intro h
    simp [ReceiptInfo.update_from_dict, ReceiptInfo.from_dict, ReceiptInfo.to_dict,
      dictMerge, h, coerce_date_isoformat now r.date hv]
  · intro h
    simp [ReceiptInfo.update_from_dict, ReceiptInfo.from_dict, ReceiptInfo.to_dict,
      dictMerge, h, htot]
  · intro h
    simp [ReceiptInfo.update_from_dict, ReceiptInfo.from_dict, ReceiptInfo.to_dict,
      dictMerge, pyTruthy, h, isEmpty_false_of_ne_nil hm]
  · intro h
    simp [ReceiptInfo.update_from_dict, ReceiptInfo.from_dict, ReceiptInfo.to_dict,
      dictMerge, sourceCurrency, pyTruthy, h, isEmpty_false_of_ne_nil hcur, hup]
  · intro h
    simp [ReceiptInfo.update_from_dict, ReceiptInfo.from_dict, ReceiptInfo.to_dict,
      dictMerge, h, hnstr]
  · intro h
    simp [ReceiptInfo.update_from_dict, ReceiptInfo.from_dict, ReceiptInfo.to_dict,
      dictMerge, h, hcstr]
  · intro h
    simp [ReceiptInfo.update_from_dict, ReceiptInfo.from_dict, ReceiptInfo.to_dict,
      dictMerge, pyTruthy, h, isEmpty_false_of_ne_nil hso]
  · intro h
    simp [ReceiptInfo.update_from_dict, ReceiptInfo.from_dict, ReceiptInfo.to_dict,
      dictMerge, h]
  · intro v h
    simp [ReceiptInfo.update_from_dict, ReceiptInfo.from_dict, ReceiptInfo.to_dict,
      dictMerge, h]
  · intro t h
    simp [ReceiptInfo.update_from_dict, ReceiptInfo.from_dict, ReceiptInfo.to_dict,
      dictMerge, h]
  · intro m h
    cases hme : m.isEmpty <;>
      simp [ReceiptInfo.update_from_dict, ReceiptInfo.from_dict, ReceiptInfo.to_dict,
        dictMerge, pyTruthy, h, hme]
  · intro cc h hne
    simp [ReceiptInfo.update_from_dict, ReceiptInfo.from_dict, ReceiptInfo.to_dict,
      dictMerge, sourceCurrency, pyTruthy, h, isEmpty_false_of_ne_nil hne]
  · intro s h
    simp [ReceiptInfo.update_from_dict, ReceiptInfo.from_dict, ReceiptInfo.to_dict,
      dictMerge, h]
  · intro s h
    simp [ReceiptInfo.update_from_dict, ReceiptInfo.from_dict, ReceiptInfo.to_dict,
      dictMerge, h]
  · intro s h hne
    simp [ReceiptInfo.update_from_dict, ReceiptInfo.from_dict, ReceiptInfo.to_dict,
      dictMerge, pyTruthy, h, isEmpty_false_of_ne_nil hne]
  · intro l h
    simp [ReceiptInfo.update_from_dict, ReceiptInfo.from_dict, ReceiptInfo.to_dict,
      dictMerge, h]

/-- A fully normalized receipt for the merge witness. -/
def normalizedSample : ReceiptInfo :=
  ⟨sampleDate, "45.0".data, "Jumbo".data, "EUR".data, some [], some "Groceries".data,
    "equal".data, []⟩

/-- C7 amended witness: correcting total and merchant only — the date and
notes keep their prior values, the corrected fields take the normalized
corrected values. -/
theorem update_from_dict_merge_witness :
    (ReceiptInfo.update_from_dict sampleNow normalizedSample
        { total := some "7.50".data, merchant := some "Shell".data }).date =
      normalizedSample.date ∧
    (ReceiptInfo.update_from_dict sampleNow normalizedSample
        { total := some "7.50".data, merchant := some "Shell".data }).notes =
      normalizedSample.notes ∧
    (ReceiptInfo.update_from_dict sampleNow normalizedSample
        { total := some "7.50".data, merchant := some "Shell".data }).total =
      pyFloatNorm "7.50".data ∧
    (ReceiptInfo.update_from_dict sampleNow normalizedSample
        { total := some "7.50".data, merchant := some "Shell".data }).merchant =
      (if ("Shell".data : Str).isEmpty then "Unknown".data else "Shell".data) := by
  obtain ⟨f1, f2, f3, f4, f5, f6, f7, f8, u9, u10, u11, u12, u13, u14, u15, u16⟩ :=
    update_from_dict_merge sampleNow normalizedSample
      { total := some "7.50".data, merchant := some "Shell".data }
      (by decide) (by decide) (by decide) (by decide) (by decide) (by decide) (by decide)
      (by decide)
  exact ⟨f1 rfl, f5 rfl, u10 _ rfl, u11 _ rfl⟩
